import Mathlib

/-!
Verification development for the `party` guest-list bot (`src/main.py`).

The script keeps a guest store (a JSON file mapping guest name to a record
with a QR image path and a check-in flag), issues QR code images, and drives
a chat front-end with two menu commands and an "awaiting name" state.
We embed the store, the QR issuer `generate_qr`, the loader
`load_guest_list`, the message handler `handle_message` and the Flask
`webhook` endpoint as pure Lean functions, with the file system and the
outbound chat effects made explicit.
-/

namespace Party

/-- One guest record, as stored in `guests.json`:
`{"qr_file": "<path>", "checked_in": <bool>}`. -/
structure Guest where
  qr_file : String
  checked_in : Bool
deriving DecidableEq, Repr

/-- The guest store: the JSON document is a mapping from name to guest.
Python dicts preserve insertion order, so we embed it as an association
list; a fresh key is appended at the end. -/
abbrev Store : Type := List (String × Guest)

/-- The states of the `guests.json` file on which `load_guest_list`
returns, split by its three returning code paths: the file may be absent
(`os.path.exists` is false), present and UTF-8-decodable but unparseable
(`json.load` raises `JSONDecodeError`, caught), or present with a parsed
mapping. This is a projection of the full disk model `RawFile` below: a
present file whose bytes are not valid UTF-8 is NOT a `FileState`,
because there `load_guest_list` raises `UnicodeDecodeError` instead of
returning (see `load_guest_list_raw`); the store-level operations and
theorems over `FileState` therefore speak about every state the program
can actually read back. -/
inductive FileState where
  | missing : FileState
  | corrupt : FileState
  | valid : Store → FileState
deriving DecidableEq, Repr

/-- `load_guest_list` (main.py lines 70-77): return the parsed mapping;
a missing file or a `JSONDecodeError` yields the empty mapping. -/
def load_guest_list : FileState → Store
  | .missing => []
  | .corrupt => []
  | .valid m => m

/-- `save_guest_list` (main.py lines 79-81): rewrite the file wholesale. -/
def save_guest_list (data : Store) : FileState :=
  .valid data

/-- The full state of the `guests.json` file on disk, as
`load_guest_list` actually finds it: absent; present but with bytes that
are not valid UTF-8 (reading the file opened with `encoding="utf-8"`
raises `UnicodeDecodeError`); or present and decodable, carrying the
parse result of its text (`none` when `json.load` raises
`JSONDecodeError`). -/
inductive RawFile where
  | missing : RawFile
  | invalidUtf8 : RawFile
  | text : Option Store → RawFile
deriving DecidableEq, Repr

/-- What a call to `load_guest_list` does: return a mapping, or let an
exception escape. The `except json.JSONDecodeError` handler at main.py
lines 73-76 does not catch `UnicodeDecodeError`, which is not a subclass
of `json.JSONDecodeError`. -/
inductive LoadOutcome where
  | ok : Store → LoadOutcome
  | unicodeDecodeError : LoadOutcome
deriving DecidableEq, Repr

/-- `load_guest_list` (main.py lines 70-77) over the full disk model: a
missing file yields the empty mapping; a present file is read as UTF-8 —
invalid bytes make the call raise `UnicodeDecodeError` (uncaught); text
that fails to parse as JSON yields the empty mapping via the
`JSONDecodeError` handler; parsed text yields the parsed mapping. -/
def load_guest_list_raw : RawFile → LoadOutcome
  | .missing => .ok []
  | .invalidUtf8 => .unicodeDecodeError
  | .text none => .ok []
  | .text (some m) => .ok m

/-- Projection of the full disk model onto the returning states:
`none` exactly when `load_guest_list` raises there. -/
def RawFile.toFileState : RawFile → Option FileState
  | .missing => some .missing
  | .invalidUtf8 => none
  | .text none => some .corrupt
  | .text (some m) => some (.valid m)

/-- The QR file path derived from a name (main.py line 90):
`f"qrcodes/{name.replace(' ', '_')}.png"` — each space becomes an
underscore, no other sanitization. -/
def qrPath (name : String) : String :=
  "qrcodes/" ++ String.mk (name.toList.map fun c => if c = ' ' then '_' else c) ++ ".png"

/-- Python `name in guests` / `guests[name]` on the store: first entry
whose key equals the name. -/
def findGuest (name : String) : Store → Option Guest
  | [] => none
  | (k, g) :: rest => if k = name then some g else findGuest name rest

/-- Result of `generate_qr`: the returned path, the resulting state of
`guests.json`, and the image files written (path, encoded text). -/
structure QRResult where
  path : String
  fs : FileState
  writes : List (String × String)
deriving DecidableEq, Repr

/-- `generate_qr` (main.py lines 83-95): reload the store; if the name is
already a key, return its stored path untouched; otherwise write an image
encoding `"Guest: {name}"` at the derived path, insert the entry with
`checked_in = False`, and persist the store. -/
def generate_qr (name : String) (fs : FileState) : QRResult :=
  let guests := load_guest_list fs
  match findGuest name guests with
  | some g => ⟨g.qr_file, fs, []⟩
  | none =>
      let qr_data := "Guest: " ++ name
      let qr_filename := qrPath name
      ⟨qr_filename, save_guest_list (guests ++ [(name, ⟨qr_filename, false⟩)]),
        [(qr_filename, qr_data)]⟩

/-- Python `str.strip()` whitespace set (the ASCII part used by the code). -/
def pyWs (c : Char) : Bool :=
  c = ' ' || c = '\t' || c = '\n' || c = '\x0d' || c = '\x0b' || c = '\x0c'

/-- Python `text.strip()` (main.py line 112): drop leading and trailing
whitespace. -/
def pyStrip (s : String) : String :=
  String.mk (((s.toList.dropWhile pyWs).reverse.dropWhile pyWs).reverse)

/-- The "Add Guest" menu label (main.py line 114). -/
def addGuestLabel : String := "➕ Add Guest"

/-- The "Show Guests" menu label (main.py line 117). -/
def showGuestsLabel : String := "📋 Show Guests"

/-- One outbound chat operation performed by the handlers. -/
inductive Effect where
  | replyText : String → Effect
  | replyPhoto : String → Effect
  | groupMsg : String → Effect
deriving DecidableEq, Repr

/-- One line of the "Show Guests" listing (main.py lines 122-124):
the name paired with a marker reflecting its `checked_in` flag. -/
def guestLine (name : String) (g : Guest) : String :=
  name ++ " - " ++ (if g.checked_in then "✅ Checked In" else "❌ Not Checked In")

/-- The full "Show Guests" reply for a non-empty store (main.py line 125). -/
def showGuestsReply (guests : Store) : String :=
  "Guest List:\n" ++ String.intercalate "\n" (guests.map fun p => guestLine p.1 p.2)

/-- Outcome of one `handle_message` call: the per-user `awaiting_name`
flag afterwards, the state of `guests.json`, the outbound effects emitted
(in order), the image files written, and whether the handler ran to
completion (`completed = false` models `save_guest_to_group` raising). -/
structure HMResult where
  awaiting : Bool
  fs : FileState
  effects : List Effect
  writes : List (String × String)
  completed : Bool
deriving DecidableEq, Repr

/-- `handle_message` (main.py lines 111-134), with the group broadcast's
success made explicit. The incoming text is stripped, then dispatched:
the two menu labels are checked before the `awaiting_name` flag. In the
awaiting branch the flag is cleared first, then `generate_qr` runs (which
persists the store), then the confirmation, the photo, and finally the
group broadcast; if the broadcast raises, everything before it — the
cleared flag and the persisted store — stands. -/
def handle_message (raw : String) (awaiting : Bool) (fs : FileState)
    (broadcastOk : Bool) : HMResult :=
  let text := pyStrip raw
  if text = addGuestLabel then
    ⟨true, fs, [.replyText "✍️ Enter guest name:"], [], true⟩
  else if text = showGuestsLabel then
    let guests := load_guest_list fs
    if guests.isEmpty then
      ⟨awaiting, fs, [.replyText "No guests found."], [], true⟩
    else
      ⟨awaiting, fs, [.replyText (showGuestsReply guests)], [], true⟩
  else if awaiting then
    let r := generate_qr text fs
    let pre := [Effect.replyText ("✅ " ++ text ++ " added! Here is the QR Code."),
                Effect.replyPhoto r.path]
    if broadcastOk then
      ⟨false, r.fs,
        pre ++ [.groupMsg ("📝 Guest Added: " ++ text ++ " | Status: Not Checked In")],
        r.writes, true⟩
    else
      ⟨false, r.fs, pre, r.writes, false⟩
  else
    ⟨awaiting, fs, [.replyText "❌ Invalid option."], [], true⟩

/-- The JSON update delivered to the webhook, abstracted to what the
handler inspects: `null` (falsy), or an object with its field names. An
empty object is falsy in Python, so it also skips the inner block. -/
inductive Upd where
  | null : Upd
  | obj : List String → Upd
deriving DecidableEq, Repr

/-- The POST body handed to `request.get_json()`: either it fails to parse
(the call raises, caught by the outer `except`) or it yields an update. -/
inductive Body where
  | badJson : Body
  | json : Upd → Body
deriving DecidableEq, Repr

/-- The `webhook` Flask handler (main.py lines 38-68), returning the
`(body, status)` pair. `processRaises` models `Update.de_json` /
`app.process_update` raising. A falsy update skips processing and falls
through to `("OK", 200)`; a truthy update without a `"message"` field
returns `("No message field", 200)` from inside the `if`; an exception
anywhere is caught and answered with a 500. -/
def webhook (body : Body) (processRaises : Bool) : String × Nat :=
  match body with
  | .badJson => ("Internal Server Error", 500)
  | .json u =>
      match u with
      | .null => ("OK", 200)
      | .obj fields =>
          if fields.isEmpty then ("OK", 200)
          else if ¬ fields.contains "message" then ("No message field", 200)
          else if processRaises then ("Internal Server Error", 500)
          else ("OK", 200)

/-- Run a sequence of incoming messages for one user through
`handle_message`, threading the `awaiting_name` flag and the store file;
each message carries whether its group broadcast succeeds. -/
def runMsgs : List (String × Bool) → Bool → FileState → Bool × FileState
  | [], awaiting, fs => (awaiting, fs)
  | (raw, bOk) :: rest, awaiting, fs =>
      let r := handle_message raw awaiting fs bOk
      runMsgs rest r.awaiting r.fs

/-- Every guest recorded in the store file has `checked_in = false`. -/
def allNotCheckedIn (fs : FileState) : Prop :=
  ∀ p ∈ load_guest_list fs, p.2.checked_in = false

instance (fs : FileState) : Decidable (allNotCheckedIn fs) :=
  inferInstanceAs (Decidable (∀ p ∈ load_guest_list fs, p.2.checked_in = false))

/-- Number of store entries keyed by a given name. -/
def countKey (name : String) (l : Store) : Nat :=
  (l.filter fun p => p.1 == name).length

/-! ## Helper lemmas -/

theorem findGuest_append_none {a : String} {l m : Store}
    (h : findGuest a l = none) : findGuest a (l ++ m) = findGuest a m := by
  induction l with
  | nil => rfl
  | cons p t ih =>
      obtain ⟨k, g⟩ := p
      by_cases hk : k = a
      · simp [findGuest, hk] at h
      · simp only [findGuest, hk, if_false, List.cons_append] at h ⊢
        exact ih h

theorem findGuest_cons_self (a : String) (g : Guest) (t : Store) :
    findGuest a ((a, g) :: t) = some g := by
  simp [findGuest]

theorem countKey_eq_zero {a : String} {l : Store}
    (h : findGuest a l = none) : countKey a l = 0 := by
  induction l with
  | nil => rfl
  | cons p t ih =>
      obtain ⟨k, g⟩ := p
      by_cases hk : k = a
      · simp [findGuest, hk] at h
      · simp only [findGuest, hk, if_false] at h
        have h2 : countKey a ((k, g) :: t) = countKey a t := by
          simp [countKey, List.filter_cons, hk]
        rw [h2]
        exact ih h

theorem countKey_append (a : String) (l m : Store) :
    countKey a (l ++ m) = countKey a l + countKey a m := by
  simp [countKey, List.filter_append]

theorem isEmpty_false_of_ne_nil {α : Type} {l : List α} (h : l ≠ []) :
    l.isEmpty = false := by
  cases l with
  | nil => cases h rfl
  | cons a t => rfl

theorem load_raw_agrees (rf : RawFile) (fs : FileState)
    (h : RawFile.toFileState rf = some fs) :
    load_guest_list_raw rf = LoadOutcome.ok (load_guest_list fs) := by
  cases rf with
  | missing =>
      cases (Option.some_inj.mp h)
      rfl
  | invalidUtf8 => cases h
  | text p =>
      cases p with
      | none =>
          cases (Option.some_inj.mp h)
          rfl
      | some m =>
          cases (Option.some_inj.mp h)
          rfl

theorem allNotCheckedIn_generate_qr (name : String) (fs : FileState)
    (h : allNotCheckedIn fs) : allNotCheckedIn (generate_qr name fs).fs := by
  cases hf : findGuest name (load_guest_list fs) with
  | some g =>
      have e : generate_qr name fs = ⟨g.qr_file, fs, []⟩ := by
        simp [generate_qr, hf]
      rw [e]
      exact h
  | none =>
      have e : generate_qr name fs =
          ⟨qrPath name,
            FileState.valid (load_guest_list fs ++ [(name, ⟨qrPath name, false⟩)]),
            [(qrPath name, "Guest: " ++ name)]⟩ := by
        simp [generate_qr, hf, save_guest_list]
      rw [e]
      intro p hp
      simp only [load_guest_list] at hp
      rcases List.mem_append.mp hp with hmem | hmem
      · exact h p hmem
      · rcases List.mem_singleton.mp hmem with rfl
        rfl

theorem allNotCheckedIn_handle_message (raw : String) (awaiting : Bool)
    (fs : FileState) (bOk : Bool) (h : allNotCheckedIn fs) :
    allNotCheckedIn (handle_message raw awaiting fs bOk).fs := by
  unfold handle_message
  by_cases h1 : pyStrip raw = addGuestLabel
  · simpa [h1] using h
  · by_cases h2 : pyStrip raw = showGuestsLabel
    · by_cases h3 : (load_guest_list fs).isEmpty
      · simpa [h1, h2, h3] using h
      · simpa [h1, h2, h3] using h
    · cases awaiting with
      | false => simpa [h1, h2] using h
      | true =>
          cases bOk with
          | false => simpa [h1, h2] using allNotCheckedIn_generate_qr (pyStrip raw) fs h
          | true => simpa [h1, h2] using allNotCheckedIn_generate_qr (pyStrip raw) fs h

theorem allNotCheckedIn_runMsgs (msgs : List (String × Bool)) (awaiting : Bool)
    (fs : FileState) (h : allNotCheckedIn fs) :
    allNotCheckedIn (runMsgs msgs awaiting fs).2 := by
  induction msgs generalizing awaiting fs with
  | nil => exact h
  | cons m rest ih =>
      exact ih _ _ (allNotCheckedIn_handle_message m.1 awaiting fs m.2 h)

/-! ## Claim theorems -/

/-- Claim C1, counterexample: a non-empty update without a `"message"`
field (here the single field `"update_id"`) is answered with status 200
and body `"No message field"`, not with a 500 as the claim states. -/
theorem C1_counterexample :
    webhook (Body.json (Upd.obj ["update_id"])) false = ("No message field", 200) ∧
    (webhook (Body.json (Upd.obj ["update_id"])) false).2 ≠ 500 := by
  refine ⟨rfl, ?_⟩
  decide

/-- Claim C1, amended: a non-empty update lacking the `"message"` field is
answered with 200 and body `"No message field"`; a 500 is returned when the
body fails to parse as JSON or when processing an update that has a
`"message"` field raises, and 200 with `"OK"` on successful processing. -/
theorem C1_claim (fields : List String) (pr : Bool)
    (hne : fields ≠ []) (hnomsg : fields.contains "message" = false) :
    webhook (Body.json (Upd.obj fields)) pr = ("No message field", 200) ∧
    (∀ q : Bool, webhook Body.badJson q = ("Internal Server Error", 500)) ∧
    (∀ fs2 : List String, fs2.contains "message" = true →
      webhook (Body.json (Upd.obj fs2)) true = ("Internal Server Error", 500) ∧
      webhook (Body.json (Upd.obj fs2)) false = ("OK", 200)) := by
  refine ⟨?_, fun q => rfl, ?_⟩
  · have hmem : "message" ∉ fields := by simpa using hnomsg
    simp [webhook, isEmpty_false_of_ne_nil hne, hmem]
  · intro fs2 hmsg
    have hmem : "message" ∈ fs2 := by simpa using hmsg
    have hne2 : fs2 ≠ [] := by rintro rfl; simp at hmem
    constructor <;> simp [webhook, isEmpty_false_of_ne_nil hne2, hmem]

/-- Claim C1, witness for the amended theorem at the concrete update
`{"update_id": ...}`. -/
theorem C1_witness :
    webhook (Body.json (Upd.obj ["update_id"])) false = ("No message field", 200) :=
  (C1_claim ["update_id"] false (by decide) (by decide)).1

/-- Claim C2, counterexample: with `awaiting_name` set, a message whose
content is the "Show Guests" menu label (or the "Add Guest" label) leaves
the flag set, so the next text message does not clear it regardless of
content. -/
theorem C2_counterexample :
    (handle_message showGuestsLabel true FileState.missing true).awaiting = true ∧
    (handle_message addGuestLabel true FileState.missing true).awaiting = true := by
  constructor <;> rfl

/-- Claim C2, amended: with `awaiting_name` set, the next text message
clears the flag provided its stripped content is not one of the two menu
labels; a menu-label message leaves the flag set instead. -/
theorem C2_claim (raw : String) (fs : FileState) (bOk : Bool)
    (h1 : pyStrip raw ≠ addGuestLabel) (h2 : pyStrip raw ≠ showGuestsLabel) :
    (handle_message raw true fs bOk).awaiting = false := by
  cases bOk <;> simp [handle_message, h1, h2]

/-- Claim C2, witness: the message `"Alice"` (not a menu label) clears the
flag. -/
theorem C2_witness :
    (handle_message "Alice" true FileState.missing true).awaiting = false :=
  C2_claim "Alice" FileState.missing true (by decide) (by decide)

/-- Claim C3: issuing a QR for a name not yet in the store returns the
derived path (spaces replaced with underscores), appends exactly one new
entry with `checked_in = false` and that path (all other entries
unchanged), writes one image encoding `"Guest: <name>"` at that path, and
persists the updated store. -/
theorem C3_claim (name : String) (fs : FileState)
    (h : findGuest name (load_guest_list fs) = none) :
    generate_qr name fs =
      ⟨qrPath name,
        FileState.valid (load_guest_list fs ++ [(name, ⟨qrPath name, false⟩)]),
        [(qrPath name, "Guest: " ++ name)]⟩ := by
  simp [generate_qr, h, save_guest_list]

/-- Claim C3, witness: issuing for the fresh name `"Bob A"` over a
one-entry store. -/
theorem C3_witness :
    generate_qr "Bob A" (FileState.valid [("X", ⟨"qrcodes/X.png", false⟩)]) =
      ⟨"qrcodes/Bob_A.png",
        FileState.valid [("X", ⟨"qrcodes/X.png", false⟩),
                         ("Bob A", ⟨"qrcodes/Bob_A.png", false⟩)],
        [("qrcodes/Bob_A.png", "Guest: Bob A")]⟩ :=
  (C3_claim "Bob A" (FileState.valid [("X", ⟨"qrcodes/X.png", false⟩)])
    (by decide)).trans (by decide)

/-- Claim C5, counterexample: a present store file whose bytes are not
valid UTF-8 makes `load_guest_list` raise `UnicodeDecodeError` — the
`except json.JSONDecodeError` handler does not catch it — so the load
does not return the empty mapping there and "load never raises" is false
of the program. -/
theorem C5_counterexample :
    load_guest_list_raw RawFile.invalidUtf8 = LoadOutcome.unicodeDecodeError ∧
    load_guest_list_raw RawFile.invalidUtf8 ≠ LoadOutcome.ok [] := by
  refine ⟨rfl, ?_⟩
  decide

/-- Claim C5, amended: loading tolerates a missing file and a present
UTF-8-decodable file whose text fails to parse as JSON — both yield the
empty mapping — but a present file whose bytes are not valid UTF-8 makes
the load raise `UnicodeDecodeError`, since only `json.JSONDecodeError`
is caught. -/
theorem C5_claim :
    load_guest_list_raw RawFile.missing = LoadOutcome.ok [] ∧
    load_guest_list_raw (RawFile.text none) = LoadOutcome.ok [] ∧
    load_guest_list_raw RawFile.invalidUtf8 = LoadOutcome.unicodeDecodeError :=
  ⟨rfl, rfl, rfl⟩

/-- Claim C4: issuing is idempotent by name. For a fresh name, a second
issue returns the first issue's path without touching the store or writing
any image, and the store then holds exactly one entry for that name;
moreover whenever a name is already a key, issuing returns the stored
entry's path with the store unmodified and no image written. -/
theorem C4_claim (name : String) (fs : FileState)
    (h0 : findGuest name (load_guest_list fs) = none) :
    generate_qr name (generate_qr name fs).fs =
      ⟨(generate_qr name fs).path, (generate_qr name fs).fs, []⟩ ∧
    countKey name (load_guest_list (generate_qr name fs).fs) = 1 ∧
    (∀ (g : Guest) (fs2 : FileState),
      findGuest name (load_guest_list fs2) = some g →
      generate_qr name fs2 = ⟨g.qr_file, fs2, []⟩) := by
  have hfirst : generate_qr name fs =
      ⟨qrPath name,
        FileState.valid (load_guest_list fs ++ [(name, ⟨qrPath name, false⟩)]),
        [(qrPath name, "Guest: " ++ name)]⟩ := by
    simp [generate_qr, h0, save_guest_list]
  have hfind : findGuest name (load_guest_list (FileState.valid
      (load_guest_list fs ++ [(name, ⟨qrPath name, false⟩)]))) =
      some (⟨qrPath name, false⟩ : Guest) := by
    show findGuest name (load_guest_list fs ++ [(name, ⟨qrPath name, false⟩)]) = _
    rw [findGuest_append_none h0, findGuest_cons_self]
  refine ⟨?_, ?_, ?_⟩
  · rw [hfirst]
    simp [generate_qr, hfind]
  · rw [hfirst]
    show countKey name (load_guest_list fs ++ [(name, ⟨qrPath name, false⟩)]) = 1
    rw [countKey_append, countKey_eq_zero h0]
    simp [countKey]
  · intro g fs2 hg
    simp [generate_qr, hg]

/-- Claim C4, witness: double issue for `"Alice"` over the empty store. -/
theorem C4_witness :
    generate_qr "Alice" (generate_qr "Alice" (FileState.valid [])).fs =
      ⟨(generate_qr "Alice" (FileState.valid [])).path,
        (generate_qr "Alice" (FileState.valid [])).fs, []⟩ ∧
    countKey "Alice" (load_guest_list (generate_qr "Alice" (FileState.valid [])).fs) = 1 :=
  ⟨(C4_claim "Alice" (FileState.valid []) (by decide)).1,
   (C4_claim "Alice" (FileState.valid []) (by decide)).2.1⟩

/-- Claim C6: on the "Show Guests" command the handler replies with the
fixed no-guests message when the loaded store is empty, and otherwise with
the newline-separated listing built from one line per guest, each line
pairing the guest's name with the marker determined by its `checked_in`
flag; every guest of the store contributes its line to the listing. -/
theorem C6_claim (fs : FileState) (awaiting : Bool) (bOk : Bool) :
    (handle_message showGuestsLabel awaiting fs bOk).effects =
      [Effect.replyText (if load_guest_list fs = [] then "No guests found."
        else showGuestsReply (load_guest_list fs))] ∧
    (∀ p ∈ load_guest_list fs,
      guestLine p.1 p.2 ∈ (load_guest_list fs).map fun q => guestLine q.1 q.2) := by
  have e : pyStrip showGuestsLabel = showGuestsLabel := by decide
  have ne1 : ¬ (showGuestsLabel = addGuestLabel) := by decide
  constructor
  · by_cases h : load_guest_list fs = []
    · simp [handle_message, e, ne1, h]
    · simp [handle_message, e, ne1, isEmpty_false_of_ne_nil h, h]
  · intro p hp
    exact List.mem_map_of_mem _ hp

/-- Claim C6, witness: a one-guest store produces the listing with the
not-checked-in marker. -/
theorem C6_witness :
    (handle_message showGuestsLabel false
      (FileState.valid [("Bob", ⟨"qrcodes/Bob.png", false⟩)]) true).effects =
      [Effect.replyText "Guest List:\nBob - ❌ Not Checked In"] :=
  ((C6_claim (FileState.valid [("Bob", ⟨"qrcodes/Bob.png", false⟩)])
    false true).1).trans (by decide)

/-- Claim C7: registration is not atomic with the group broadcast. With
`awaiting_name` set and a non-menu fresh name incoming, if the broadcast
fails the handler does not complete, yet the persisted store is exactly
the one the successful run produces and it contains the new guest's entry
— no rollback. -/
theorem C7_claim (raw : String) (fs : FileState)
    (h1 : pyStrip raw ≠ addGuestLabel) (h2 : pyStrip raw ≠ showGuestsLabel)
    (h3 : findGuest (pyStrip raw) (load_guest_list fs) = none) :
    (handle_message raw true fs false).completed = false ∧
    (handle_message raw true fs false).fs = (handle_message raw true fs true).fs ∧
    findGuest (pyStrip raw) (load_guest_list (handle_message raw true fs false).fs) =
      some ⟨qrPath (pyStrip raw), false⟩ := by
  have hgen : generate_qr (pyStrip raw) fs =
      ⟨qrPath (pyStrip raw),
        FileState.valid (load_guest_list fs ++
          [(pyStrip raw, ⟨qrPath (pyStrip raw), false⟩)]),
        [(qrPath (pyStrip raw), "Guest: " ++ pyStrip raw)]⟩ := by
    simp [generate_qr, h3, save_guest_list]
  refine ⟨?_, ?_, ?_⟩
  · simp [handle_message, h1, h2]
  · simp [handle_message, h1, h2]
  · simp only [handle_message, h1, h2, if_neg, if_false, if_true]
    rw [hgen]
    show findGuest (pyStrip raw)
      (load_guest_list fs ++ [(pyStrip raw, ⟨qrPath (pyStrip raw), false⟩)]) = _
    rw [findGuest_append_none h3, findGuest_cons_self]

/-- Claim C7, witness: registering `"Alice"` over the empty store with a
failing broadcast leaves her entry persisted. -/
theorem C7_witness :
    (handle_message "Alice" true (FileState.valid []) false).completed = false ∧
    findGuest (pyStrip "Alice")
      (load_guest_list (handle_message "Alice" true (FileState.valid []) false).fs) =
      some ⟨qrPath (pyStrip "Alice"), false⟩ :=
  ⟨(C7_claim "Alice" (FileState.valid []) (by decide) (by decide) (by decide)).1,
   (C7_claim "Alice" (FileState.valid []) (by decide) (by decide) (by decide)).2.2⟩

/-- Claim C8: starting from the empty store, after any sequence of
incoming messages (covering QR issue and "Show Guests", with arbitrary
broadcast outcomes) every entry of the resulting store has
`checked_in = false`; no operation ever sets it to `true`. -/
theorem C8_claim (msgs : List (String × Bool)) (awaiting : Bool) :
    allNotCheckedIn (runMsgs msgs awaiting (FileState.valid [])).2 :=
  allNotCheckedIn_runMsgs msgs awaiting (FileState.valid [])
    (by intro p hp; cases hp)

/-- Claim C8, witness: the invariant holds after a concrete session that
opens the menu, registers a guest and lists the store. -/
theorem C8_witness :
    allNotCheckedIn (runMsgs
      [(addGuestLabel, true), ("Alice", true), (showGuestsLabel, true)]
      false (FileState.valid [])).2 :=
  C8_claim [(addGuestLabel, true), ("Alice", true), (showGuestsLabel, true)] false

/-- Claim C9: the name-to-path derivation is not injective — `"a b"` and
`"a_b"` are distinct names with the same derived path; issuing both yields
two distinct store entries sharing one `qr_file` path, and the second
issue writes its image to the very path the first issue wrote. -/
theorem C9_claim :
    ("a b" : String) ≠ "a_b" ∧
    qrPath "a b" = qrPath "a_b" ∧
    (generate_qr "a b" (FileState.valid [])).path = "qrcodes/a_b.png" ∧
    (generate_qr "a b" (FileState.valid [])).writes =
      [("qrcodes/a_b.png", "Guest: a b")] ∧
    (generate_qr "a_b" (generate_qr "a b" (FileState.valid [])).fs).path =
      "qrcodes/a_b.png" ∧
    (generate_qr "a_b" (generate_qr "a b" (FileState.valid [])).fs).writes =
      [("qrcodes/a_b.png", "Guest: a_b")] ∧
    load_guest_list (generate_qr "a_b" (generate_qr "a b" (FileState.valid [])).fs).fs =
      [("a b", ⟨"qrcodes/a_b.png", false⟩), ("a_b", ⟨"qrcodes/a_b.png", false⟩)] := by
  decide

/-- Claim C10: the handler dispatches on the text with surrounding
whitespace stripped; while awaiting a name, the guest is registered under
the stripped text — `" Alice "` registers `"Alice"`, and an all-whitespace
message registers the empty-string name. -/
theorem C10_claim :
    (∀ (raw : String) (fs : FileState) (bOk : Bool),
      pyStrip raw ≠ addGuestLabel → pyStrip raw ≠ showGuestsLabel →
      findGuest (pyStrip raw) (load_guest_list fs) = none →
      load_guest_list (handle_message raw true fs bOk).fs =
        load_guest_list fs ++ [(pyStrip raw, ⟨qrPath (pyStrip raw), false⟩)]) ∧
    pyStrip " Alice " = "Alice" ∧
    load_guest_list (handle_message " Alice " true (FileState.valid []) true).fs =
      [("Alice", ⟨"qrcodes/Alice.png", false⟩)] ∧
    pyStrip " \t " = "" ∧
    load_guest_list (handle_message " \t " true (FileState.valid []) true).fs =
      [("", ⟨"qrcodes/.png", false⟩)] := by
  refine ⟨?_, by decide, by decide, by decide, by decide⟩
  intro raw fs bOk h1 h2 h3
  have hgen : generate_qr (pyStrip raw) fs =
      ⟨qrPath (pyStrip raw),
        FileState.valid (load_guest_list fs ++
          [(pyStrip raw, ⟨qrPath (pyStrip raw), false⟩)]),
        [(qrPath (pyStrip raw), "Guest: " ++ pyStrip raw)]⟩ := by
    simp [generate_qr, h3, save_guest_list]
  cases bOk <;> simp [handle_message, h1, h2, hgen, load_guest_list]

/-- Claim C10, witness: registering `"Bob"` over the empty store through
the general stripped-dispatch statement. -/
theorem C10_witness :
    load_guest_list (handle_message "Bob" true (FileState.valid []) true).fs =
      load_guest_list (FileState.valid []) ++
        [(pyStrip "Bob", ⟨qrPath (pyStrip "Bob"), false⟩)] :=
  C10_claim.1 "Bob" (FileState.valid []) true (by decide) (by decide) (by decide)

end Party
